import Mathlib

/-!
Verification of the A/B-update orchestration helpers of the trident test
harness (`e2e_tests/helpers/ab_update.py`, `e2e_tests/helpers/ssh_utilities.py`,
and `update_host_config.py` of the baremetal pipeline).

Strings are modelled as lists of characters (`Str`), and the Python string
operations used by the source (`split`, `rsplit`, `startswith`, `strip`,
membership of a line in the split output) are given as executable functions
with the same semantics.  The `sed -i s#old#new#g` URL substitution
performed by `update_host_config_images` is modelled as occurrence-level
text substitution applied to every URL-valued field of the document:
occurrences of the pattern are replaced left to right, non-overlapping, and
the replacement text is not rescanned, exactly as `sed` substitutes within
a line.  The old URL is passed to `sed` unescaped, so a `.` in it is a
regular-expression metacharacter matching any character; the pattern
matcher below (`patPrefix`/`containsPat`) reproduces this.  Occurrences of
a URL inside values that are not URL fields (say, a device id that happens
to contain the URL text) are outside the model, as are patterns containing
a newline (sed substitutes per line).
-/

abbrev Str := List Char

/-! ## Python string primitives -/

/-- Python `s.split(c)` for a one-character separator `c`. -/
def splitOnChar (c : Char) : Str → List Str
  | [] => [[]]
  | x :: xs =>
    if x = c then [] :: splitOnChar c xs
    else
      match splitOnChar c xs with
      | [] => [[x]]
      | h :: t => (x :: h) :: t

/-- Python `s.split(c)[-1]`: the part of `s` after the last occurrence of
`c`, or all of `s` when `c` does not occur. -/
def afterLastChar (c : Char) : Str → Str
  | [] => []
  | x :: xs => if c ∈ xs ∨ x = c then afterLastChar c xs else x :: xs

/-- Python `s.split(pat)[0]`: the part of `s` before the first occurrence of
the (non-empty) separator `pat`, or all of `s` when `pat` does not occur. -/
def beforeSeq (pat : Str) : Str → Str
  | [] => []
  | x :: xs => if pat.isPrefixOf (x :: xs) then [] else x :: beforeSeq pat xs

/-- Python `sep.join(s.rsplit(c, 1)[:-1])` for a one-character separator:
the part of `s` before the last occurrence of `c`, or `[]` when `c` does
not occur. -/
def beforeLastChar (c : Char) : Str → Str
  | [] => []
  | x :: xs =>
    if c ∈ xs then x :: beforeLastChar c xs
    else []

/-- Python `s.strip("/")`. -/
def stripSlashes (s : Str) : Str :=
  ((s.dropWhile (· = '/')).reverse.dropWhile (· = '/')).reverse

/-- Python `s.strip()` (whitespace at both ends). -/
def stripWS (s : Str) : Str :=
  ((s.dropWhile Char.isWhitespace).reverse.dropWhile Char.isWhitespace).reverse

/-- Python `s.strip().split("\n")`, the line list that
`trident_run_command` matches its markers against. -/
def splitLines (s : Str) : List Str := splitOnChar '\n' (stripWS s)

example : splitOnChar '/' "a/b".toList = ["a".toList, "b".toList] := by decide
example : afterLastChar '/' "http://h/root.rawzst".toList = "root.rawzst".toList := by decide
example : beforeSeq ".rawzst".toList "root.rawzst".toList = "root".toList := by decide
example : beforeLastChar '_' "verity_roothash_v2".toList = "verity_roothash".toList := by decide
example : beforeLastChar '_' "root".toList = [] := by decide
example : stripSlashes "/abupdate/".toList = "abupdate".toList := by decide

/-! ## Host Configuration data model

Mirrors the YAML document consumed by `get_images_to_update` and
`is_root_verity`.  Keys the source reads with a plain subscript are required
fields; keys read with `.get` are `Option`s (an absent list read with
`.get(..., [])` or `or []` is the empty list). -/

structure ImageSource where
  type : Str
  url : Str
deriving DecidableEq, Repr

inductive MountPoint where
  | str (s : Str)
  | obj (path : Option Str)
  | other
deriving DecidableEq, Repr

structure Filesystem where
  deviceId : Option Str
  mountPoint : Option MountPoint
  source : Option ImageSource
deriving DecidableEq, Repr

structure Partition where
  id : Str
  type : Str
deriving DecidableEq, Repr

structure Disk where
  partitions : List Partition
deriving DecidableEq, Repr

structure VerityFilesystem where
  dataDeviceId : Str
  dataImageUrl : Str
  hashDeviceId : Str
  hashImageUrl : Str
deriving DecidableEq, Repr

structure VolumePair where
  id : Str
deriving DecidableEq, Repr

/-- An entry of `storage.verity` (the schema read by `is_root_verity`). -/
structure VerityDev where
  id : Option Str
deriving DecidableEq, Repr

structure Storage where
  disks : List Disk
  filesystems : List Filesystem
  verityFilesystems : List VerityFilesystem
  verity : List VerityDev
  abVolumePairs : List VolumePair
deriving DecidableEq, Repr

structure HostConfiguration where
  storage : Storage
  /-- `trident.selfUpgrade`; `none` models an absent key. -/
  selfUpgrade : Option Bool
deriving DecidableEq, Repr

def emptyStorage : Storage := ⟨[], [], [], [], []⟩

/-! ## get_images_to_update -/

/-- Scan of all disks for the ESP partition id: the inner loop breaks at the
first `type == "esp"` partition of a disk, the outer loop keeps overwriting,
so the result is the first ESP partition of the last disk that has one. -/
def espTargetId (disks : List Disk) : Option Str :=
  disks.foldl
    (fun acc d =>
      match d.partitions.find? (fun p => p.type == "esp".toList) with
      | some p => some p.id
      | none => acc)
    none

/-- Image URL contributed by a single `storage.filesystems` entry: present
when the entry has a truthy `deviceId` and a `source` of type `image` or
`esp-image`. -/
def fsImage1 (fs : Filesystem) : Option (Str × Str) :=
  match fs.deviceId, fs.source with
  | some d, some src =>
    if d ≠ [] ∧ (src.type = "image".toList ∨ src.type = "esp-image".toList)
    then some (src.url, d) else none
  | _, _ => none

def fsImages (fss : List Filesystem) : List (Str × Str) :=
  fss.filterMap fsImage1

/-- Image URLs contributed by `storage.verityFilesystems`: the data and hash
image of every entry, unconditionally. -/
def verityImages (vfs : List VerityFilesystem) : List (Str × Str) :=
  (vfs.map fun v =>
    [(v.dataImageUrl, v.dataDeviceId), (v.hashImageUrl, v.hashDeviceId)]).flatten

def httpPref : Str := "http://".toList
def rawzstExt : Str := ".rawzst".toList

/-- Base image name extracted from a URL: for `http://` URLs the last path
segment up to `.rawzst`; otherwise additionally everything after the last
underscore is dropped (`"_".join(seg.rsplit("_", 1)[:-1])`). -/
def image_name (url : Str) : Str :=
  if httpPref.isPrefixOf url then
    beforeSeq rawzstExt (afterLastChar '/' url)
  else
    beforeLastChar '_' (beforeSeq rawzstExt (afterLastChar '/' url))

/-- Filter of `all_images` down to devices that are the ESP target or belong
to an A/B volume pair, paired with their extracted base image name. -/
def eligiblePairs (esp : Option Str) (abIds : List Str) (l : List (Str × Str)) :
    List (Str × Str) :=
  l.filterMap fun ud =>
    if some ud.2 = esp ∨ ud.2 ∈ abIds then some (ud.1, image_name ud.1) else none

def all_images (s : Storage) : List (Str × Str) :=
  fsImages s.filesystems ++ verityImages s.verityFilesystems

def get_images_to_update (s : Storage) : List (Str × Str) :=
  eligiblePairs (espTargetId s.disks) (s.abVolumePairs.map (·.id)) (all_images s)

/-! ## update_host_config_images -/

def hostDirectory (runtimeEnv : Str) : Str :=
  if runtimeEnv = "host".toList then "/".toList else "/host/".toList

/-- The replacement URL
`f"file://{host_directory}{destination_directory}/{image_name}_v{version}.rawzst"`
(`destDir` is the already-stripped destination directory). -/
def new_url (hostDir destDir version name : Str) : Str :=
  "file://".toList ++ hostDir ++ destDir ++ "/".toList ++ name
    ++ "_v".toList ++ version ++ rawzstExt

/-- One character of the unescaped sed pattern against one text character:
a literal match, except that `.` is a regular-expression metacharacter and
matches any character. -/
def patCharMatches (p c : Char) : Bool := p == '.' || p == c

/-- Whether the unescaped sed pattern `pat` matches at the start of `s`
(each pattern character consumes exactly one text character). -/
def patPrefix : Str → Str → Bool
  | [], _ => true
  | _ :: _, [] => false
  | p :: ps, c :: cs => patCharMatches p c && patPrefix ps cs

/-- Fuel-indexed worker for `replaceAll`; the fuel bounds the number of
characters consumed and is set to the length of the subject string. -/
def replaceAllFuel (old new : Str) : Nat → Str → Str
  | 0, s => s
  | _ + 1, [] => []
  | fuel + 1, x :: xs =>
    if patPrefix old (x :: xs) = true ∧ old ≠ [] then
      new ++ replaceAllFuel old new fuel (xs.drop (old.length - 1))
    else
      x :: replaceAllFuel old new fuel xs

/-- `sed s#old#new#g` on a single line `s`: every occurrence of the
(unescaped) pattern `old` is replaced by `new`, scanning left to right,
non-overlapping, without rescanning the replacement text. -/
def replaceAll (old new s : Str) : Str := replaceAllFuel old new s.length s

/-- Sequential application of the `sed -i s#old#new#g` commands, one per
entry of `get_images_to_update`, to a single URL-valued field. -/
def applySeds (hostDir destDir version : Str) (upd : List (Str × Str))
    (u : Str) : Str :=
  upd.foldl
    (fun cur p => replaceAll p.1 (new_url hostDir destDir version p.2) cur)
    u

def rewriteFs (f : Str → Str) (fs : Filesystem) : Filesystem :=
  { fs with source := fs.source.map fun s => { s with url := f s.url } }

def rewriteVerityFs (f : Str → Str) (v : VerityFilesystem) : VerityFilesystem :=
  { v with dataImageUrl := f v.dataImageUrl, hashImageUrl := f v.hashImageUrl }

/-- The staging transform of `update_host_config_images`: every URL field
whose value equals one of the collected old URLs is rewritten by the
corresponding `sed`, and the trailing
`sed s#selfUpgrade: true#selfUpgrade: false#g` turns a present `true` into
`false` (a present `false` stays `false`; an absent key stays absent). -/
def update_host_config_images (runtimeEnv destinationDirectory version : Str)
    (cfg : HostConfiguration) : HostConfiguration :=
  let upd := get_images_to_update cfg.storage
  let f := applySeds (hostDirectory runtimeEnv) (stripSlashes destinationDirectory)
    version upd
  { storage :=
      { cfg.storage with
        filesystems := cfg.storage.filesystems.map (rewriteFs f)
        verityFilesystems := cfg.storage.verityFilesystems.map (rewriteVerityFs f) }
    selfUpgrade := cfg.selfUpgrade.map fun _ => false }

example :
    image_name "http://host/files/root.rawzst".toList = "root".toList := by decide
example :
    image_name "file:///abupdate/esp_v2.rawzst".toList = "esp".toList := by decide
example :
    image_name "file:///run/verity_roothash_v2.rawzst".toList
      = "verity_roothash".toList := by decide

/-! ## trident_run_command: outcome classification and reconnection loop -/

def RETRY_INTERVAL : Nat := 60
def MAX_RETRIES : Nat := 5

/-- A single ASCII apostrophe, used to spell the staging marker. -/
def apos : Char := Char.ofNat 39

def rebootLine : Str := "[INFO  trident::engine] Rebooting system".toList

def stagingLine : Str :=
  "[INFO  trident::engine] Staging of update ".toList ++ [apos]
    ++ "AbUpdate".toList ++ [apos] ++ " succeeded".toList

def rerunLine : Str :=
  ("[DEBUG trident::engine::hooks] Running script "
    ++ "fail-on-the-first-run-to-force-rerun with interpreter /usr/bin/python3").toList

/-- Result of the inner `trident_run` call: either `CommandTimedOut` with the
output captured up to the disconnect, or a completed process with its return
code and output. -/
inductive TridentResult where
  | timedOut (output : Str)
  | completed (returnCode : Int) (output : Str)
deriving DecidableEq, Repr

/-- The branch of `trident_run_command` taken for a given `trident_run`
result.  `uncaughtNameError` is the final `else` branch: its
`raise Exception(f"... exit code {trident_return_code} and output {output}")`
references the name `output`, which is bound nowhere in the function (the
variable holding the output is `trident_output`), so evaluating the f-string
raises `NameError` before the intended exception is constructed. -/
inductive RunOutcome where
  | rebootTimeout
  | raiseTimeout
  | stagingSucceeded
  | rebootExitCode
  | retryLoop
  | uncaughtNameError
deriving DecidableEq, Repr

def trident_run_command_outcome : TridentResult → RunOutcome
  | .timedOut o =>
    if rebootLine ∈ splitLines o then .rebootTimeout else .raiseTimeout
  | .completed rc o =>
    let ls := splitLines o
    if rc = 0 ∧ stagingLine ∈ ls then .stagingSucceeded
    else if rc = -1 ∧ rebootLine ∈ ls then .rebootExitCode
    else if rc ≠ 0 ∧ rerunLine ∈ ls then .retryLoop
    else .uncaughtNameError

/-- The `for attempt in range(MAX_RETRIES)` reconnection loop:
`recon i` tells whether attempt `i` (sleep, reconnect, echo) succeeds.
Returns the number of attempts performed and whether one succeeded. -/
def reconnectLoop (recon : Nat → Bool) : Nat → Nat → Nat × Bool
  | 0, _ => (0, false)
  | fuel + 1, start =>
    if recon start then (1, true)
    else
      let r := reconnectLoop recon fuel (start + 1)
      (r.1 + 1, r.2)

def trident_reconnect (recon : Nat → Bool) : Nat × Bool :=
  reconnectLoop recon MAX_RETRIES 0

/-- How `trident_run_command` terminates: a normal return, a raised
exception with its message, or the uncaught `NameError` of the final
`else` branch. -/
inductive CommandResult where
  | ok
  | raised (msg : Str)
  | raisedNameError
deriving DecidableEq, Repr

def timeoutMsg : Str := "Trident run timed out".toList
def maxRetriesMsg : Str := "Maximum reconnection attempts exceeded.".toList

/-- Full model of `trident_run_command`: the termination mode together with
the number of reconnection attempts performed. -/
def trident_run_command (res : TridentResult) (recon : Nat → Bool) :
    CommandResult × Nat :=
  match trident_run_command_outcome res with
  | .rebootTimeout => (.ok, 0)
  | .raiseTimeout => (.raised timeoutMsg, 0)
  | .stagingSucceeded => (.ok, 0)
  | .rebootExitCode => (.ok, 0)
  | .retryLoop =>
    let r := trident_reconnect recon
    (if r.2 then .ok else .raised maxRetriesMsg, r.1)
  | .uncaughtNameError => (.raisedNameError, 0)

/-! ## ssh_utilities: containerized invocation and SELinux enforcement -/

def TRIDENT_EXECUTABLE_PATH : Str := "/usr/bin/trident".toList

def EXECUTE_TRIDENT_CONTAINER : Str :=
  ("docker run --pull=never --rm --privileged "
    ++ "-v /etc/trident:/etc/trident -v /var/lib/trident:/var/lib/trident "
    ++ "-v /:/host -v /dev:/dev -v /run:/run -v /sys:/sys -v /var/log:/var/log "
    ++ "--pid host --ipc host trident/trident:latest").toList

/-- The remote host state touched by `_reload_container_image`. -/
structure HostState where
  selinuxEnforcing : Bool
  dockerImagePresent : Bool
  dockerLoadOk : Bool
  imageLoaded : Bool
deriving DecidableEq, Repr

/-- `_reload_container_image`: checks the image file, runs
`sudo setenforce 0` (the source carries `TODO: Re-enable SELinux (#9508)` —
enforcement is never restored, on success or on error), then
`docker load`.  Returns the host state the function leaves behind together
with the message of the exception it raises, if any. -/
def reload_container_image (st : HostState) : HostState × Option Str :=
  if ¬ st.dockerImagePresent then
    (st, some "Can not locate Docker image.".toList)
  else
    let st1 := { st with selinuxEnforcing := false }
    if st1.dockerLoadOk then ({ st1 with imageLoaded := true }, none)
    else (st1, some "Unable to load Docker image for Trident.".toList)

/-- `_trident_command`: for the container runtime it reloads the container
image first and returns the `docker run` wrapper, otherwise the plain
executable path.  The first component is the host state left behind. -/
def trident_command_for (runtimeEnv : Str) (st : HostState) :
    HostState × Except Str Str :=
  if runtimeEnv = "container".toList then
    let r := reload_container_image st
    (r.1, match r.2 with
          | some e => .error e
          | none => .ok EXECUTE_TRIDENT_CONTAINER)
  else
    (st, .ok TRIDENT_EXECUTABLE_PATH)

/-! ## is_root_verity (update_host_config.py) -/

/-- Mount-point check applied by `is_root_verity` to the filesystem it
found: a string mount point must equal `/`, a mapping must have
`path == "/"`, anything else (including an absent mount point) is `False`. -/
def mountsRoot (fs : Filesystem) : Bool :=
  match fs.mountPoint with
  | some (.str s) => s == "/".toList
  | some (.obj p) => p == some "/".toList
  | _ => false

def is_root_verity (cfg : HostConfiguration) : Except Str Bool :=
  match cfg.storage.verity with
  | [] => .ok false
  | [v] =>
    match cfg.storage.filesystems.find? (fun fs => fs.deviceId == v.id) with
    | none => .ok false
    | some fs => .ok (mountsRoot fs)
  | _ :: _ :: _ =>
    .error "Multiple verity configurations found, expected only one.".toList

/-! ## Concrete fixtures -/

/-- The successful-stage scenario configuration: a `root` filesystem backed
by `http://host/files/root.rawzst`, a `root` A/B volume pair, and
`selfUpgrade: true`. -/
def scenarioCfg : HostConfiguration :=
  { storage :=
      { emptyStorage with
        filesystems :=
          [{ deviceId := some "root".toList
             mountPoint := none
             source := some { type := "image".toList
                              url := "http://host/files/root.rawzst".toList } }]
        abVolumePairs := [{ id := "root".toList }] }
    selfUpgrade := some true }

example :
    get_images_to_update scenarioCfg.storage
      = [("http://host/files/root.rawzst".toList, "root".toList)] := by decide

/-- Scenario configuration with the `selfUpgrade` key absent. -/
def cfgNoSelfUpgrade : HostConfiguration :=
  { scenarioCfg with selfUpgrade := none }

/-- A configuration whose single verity device is matched by two
filesystems: the first mounted at `/data`, the second at `/`. -/
def verityCfgTwoMatches : HostConfiguration :=
  { storage :=
      { emptyStorage with
        verity := [{ id := some "v".toList }]
        filesystems :=
          [{ deviceId := some "v".toList
             mountPoint := some (.str "/data".toList)
             source := none },
           { deviceId := some "v".toList
             mountPoint := some (.str "/".toList)
             source := none }] }
    selfUpgrade := none }

theorem applySeds_nil (hd dd ver : Str) (u : Str) :
    applySeds hd dd ver [] u = u := rfl

/-- C1: staging the scenario configuration with version `5`, destination
directory `/abupdate` and runtime environment `host` rewrites the root
filesystem image URL to exactly `file:///abupdate/root_v5.rawzst` and turns
`trident.selfUpgrade` from `true` to `false`. -/
theorem c1_stage_scenario :
    update_host_config_images "host".toList "/abupdate".toList "5".toList
      scenarioCfg
    = { storage :=
          { emptyStorage with
            filesystems :=
              [{ deviceId := some "root".toList
                 mountPoint := none
                 source := some { type := "image".toList
                                  url := "file:///abupdate/root_v5.rawzst".toList } }]
            abVolumePairs := [{ id := "root".toList }] }
        selfUpgrade := some false } := by decide

/-- C4 counterexample: when `trident.selfUpgrade` is absent from the input,
the staged configuration does not have it equal to `false` — the
`sed s#selfUpgrade: true#selfUpgrade: false#g` only rewrites a present
`true`, so the claim fails for absent keys. -/
theorem c4_counterexample :
    (update_host_config_images "host".toList "/abupdate".toList "5".toList
        cfgNoSelfUpgrade).selfUpgrade ≠ some false := by decide

/-- C4 amended: whenever `trident.selfUpgrade` is present (with either
value), the staged configuration has it equal to `false`. -/
theorem c4_amended (renv dd ver : Str) (cfg : HostConfiguration) (b : Bool)
    (h : cfg.selfUpgrade = some b) :
    (update_host_config_images renv dd ver cfg).selfUpgrade = some false := by
  simp [update_host_config_images, h]

theorem c4_amended_witness :
    scenarioCfg.selfUpgrade = some true ∧
    (update_host_config_images "host".toList "/abupdate".toList "5".toList
        scenarioCfg).selfUpgrade = some false :=
  ⟨by decide, c4_amended _ _ _ _ true (by decide)⟩

/-- C6: a timed-out invocation is decided solely by whether the captured
output contains the reboot marker line: with the marker the function
returns normally, without it it raises `Trident run timed out`, and in
neither case is a reconnection attempt performed. -/
theorem c6_timeout_classification (o : Str) (recon : Nat → Bool) :
    trident_run_command (.timedOut o) recon
      = (if rebootLine ∈ splitLines o then .ok else .raised timeoutMsg, 0) := by
  by_cases h : rebootLine ∈ splitLines o <;>
    simp [trident_run_command, trident_run_command_outcome, h]

/-- C9 (code bug): a containerized invocation starting from an enforcing
host runs `setenforce 0` and never restores the original enforcement mode,
neither after the successful `docker load` path nor on the failing one —
the source itself carries `TODO: Re-enable SELinux (#9508)`. -/
theorem c9_selinux_not_restored :
    (trident_command_for "container".toList
        { selinuxEnforcing := true, dockerImagePresent := true,
          dockerLoadOk := true, imageLoaded := false }).1.selinuxEnforcing
      = false ∧
    (trident_command_for "container".toList
        { selinuxEnforcing := true, dockerImagePresent := true,
          dockerLoadOk := false, imageLoaded := false }).1.selinuxEnforcing
      = false ∧
    (trident_command_for "container".toList
        { selinuxEnforcing := true, dockerImagePresent := true,
          dockerLoadOk := false, imageLoaded := false }).2
      = .error "Unable to load Docker image for Trident.".toList :=
  ⟨rfl, rfl, rfl⟩

/-- C10 counterexample: with a single verity device matched by two
filesystems — the first mounted at `/data`, the second at `/` —
`is_root_verity` returns `False` although a filesystems entry with the
verity id and a `/` mount point exists: the function only inspects the
first match. -/
theorem c10_counterexample :
    is_root_verity verityCfgTwoMatches = .ok false ∧
    (verityCfgTwoMatches.storage.filesystems.any fun fs =>
      fs.deviceId == some "v".toList && mountsRoot fs) = true :=
  ⟨rfl, by decide⟩

/-- C10 amended: an empty (or absent) `storage.verity` yields `False`, more
than one entry raises, and with a single entry the result is `True` iff the
first filesystems entry whose `deviceId` equals the verity id exists and has
mount point `/` (as a string or as a mapping path). -/
theorem c10_amended (cfg : HostConfiguration) :
    (cfg.storage.verity = [] → is_root_verity cfg = .ok false) ∧
    (∀ v, cfg.storage.verity = [v] →
      is_root_verity cfg
        = .ok (((cfg.storage.filesystems.find? fun fs =>
            fs.deviceId == v.id).map mountsRoot).getD false)) ∧
    (∀ v1 v2 rest, cfg.storage.verity = v1 :: v2 :: rest →
      ∃ e, is_root_verity cfg = .error e) := by
  refine ⟨fun h => ?_, fun v h => ?_, fun v1 v2 rest h => ?_⟩
  · unfold is_root_verity
    rw [h]
  · unfold is_root_verity
    rw [h]
    cases hf : cfg.storage.filesystems.find? fun fs => fs.deviceId == v.id <;>
      simp [hf]
  · unfold is_root_verity
    rw [h]
    exact ⟨_, rfl⟩

theorem c10_amended_witness :
    is_root_verity verityCfgTwoMatches
      = .ok (((verityCfgTwoMatches.storage.filesystems.find? fun fs =>
          fs.deviceId == (⟨some "v".toList⟩ : VerityDev).id).map
            mountsRoot).getD false) :=
  (c10_amended verityCfgTwoMatches).2.1 ⟨some "v".toList⟩ (by decide)




